import Mathlib

/-!
Verification of the object-retrieval protocol layer of the neofs-s3-gw
gateway: the metadata model (`api/data/info.go`), the HTTP Range parser and
conditional-request evaluator (pinned by the test tables in
`api/handler/get_test.go`), and the `GetObjectHandler` orchestrator.

Modelling conventions:
- Go strings are Lean `String`; byte positions and sizes are `Nat`
  (`ObjectInfo.Size` is a Go `int64` documented as `≥ 0`, and the range
  parser receives it as `uint64`).
- `time.Time` values are modelled as `Int` instants; `t1.After t2` is
  `t1 > t2` and `t1.Before t2` is `t1 < t2` (only the ordering of instants
  is relevant to the code under verification).
- Backend identifier types (`oid.ID`, `cid.ID`, `user.ID`) are opaque to
  this layer and modelled as `String`.
-/

namespace S3

/-! ## Metadata model — `api/data/info.go` -/

def bktSettingsObject : String := ".s3-settings"

def bktCORSConfigurationObject : String := ".s3-cors"

def bktNotificationConfigurationObject : String := ".s3-notifications"

/-- BucketInfo stores basic bucket data (`api/data/info.go`). -/
structure BucketInfo where
  Name : String
  CID : String
  Owner : String
  Created : Int
  LocationConstraint : String
  ObjectLockEnabled : Bool
  deriving DecidableEq, Repr

/-- ObjectInfo holds S3 object data (`api/data/info.go`). -/
structure ObjectInfo where
  ID : String
  CID : String
  IsDir : Bool
  IsDeleteMarker : Bool
  Bucket : String
  Name : String
  Size : Nat
  ContentType : String
  Created : Int
  HashSum : String
  Owner : String
  Headers : List (String × String)
  deriving DecidableEq, Repr

/-- SettingsObjectName is a system name for a bucket settings file. -/
def BucketInfo.SettingsObjectName (_ : BucketInfo) : String := bktSettingsObject

/-- CORSObjectName returns a system name for a bucket CORS configuration file. -/
def BucketInfo.CORSObjectName (_ : BucketInfo) : String := bktCORSConfigurationObject

def BucketInfo.NotificationConfigurationObjectName (_ : BucketInfo) : String :=
  bktNotificationConfigurationObject

/-- Version returns object version from ObjectInfo (`o.ID.EncodeToString()`,
with the opaque identifier modelled as the string itself). -/
def ObjectInfo.Version (o : ObjectInfo) : String := o.ID

/-- NiceName returns object name for cache. -/
def ObjectInfo.NiceName (o : ObjectInfo) : String := o.Bucket ++ "/" ++ o.Name

/-- Address returns object address: the `(container, object)` identifier pair. -/
def ObjectInfo.Address (o : ObjectInfo) : String × String := (o.CID, o.ID)

/-! ## Conditional-request evaluation

The `checkPreconditions` implementation (the current-era `api/handler/get.go`)
is absent from `src/`; only its test table (`TestPreconditions` in
`src/api/handler/get_test.go`) is present. The definition below is therefore
spec-modelled and validated row-by-row against that table
(`checkPreconditions_matches_TestPreconditions`). -/

/-- conditionalArgs bundles the four optional conditional-header values of one
request. As in the Go struct, the two ETag conditions are strings with `""`
meaning "not set", and the two time conditions are pointers modelled as
`Option Int`. -/
structure conditionalArgs where
  IfModifiedSince : Option Int
  IfUnmodifiedSince : Option Int
  IfMatch : String
  IfNoneMatch : String
  deriving DecidableEq, Repr

/-- The zero value `new(conditionalArgs)` used by the tests. -/
def conditionalArgs.empty : conditionalArgs := ⟨none, none, "", ""⟩

/-- The two failure verdicts of the precondition evaluator; `none` below means
"no violation". `preconditionFailed` corresponds to
`errors.GetAPIError(errors.ErrPreconditionFailed)` and `notModified` to
`errors.GetAPIError(errors.ErrNotModified)`. -/
inductive CondVerdict where
  | preconditionFailed
  | notModified
  deriving DecidableEq, Repr

/-- `afterOpt created t?` holds when the optional instant is set and the
object's Last-Modified is strictly after it (`info.Created.After(*t)`). -/
def afterOpt (created : Int) : Option Int → Bool
  | some t => decide (created > t)
  | none => false

/-- `notAfterOpt created t?` holds when the optional instant is set and the
object's Last-Modified is not strictly after it. -/
def notAfterOpt (created : Int) : Option Int → Bool
  | some t => decide (created ≤ t)
  | none => false

/-- Modelled from the spec: the body of `checkPreconditions` (current-era
`api/handler/get.go`) is missing from `src/`. Steps follow §4.2 of the spec —
the match-group checks (`IfMatch`, `IfUnmodifiedSince`) are evaluated first
and short-circuit, then the none-match group — with the interaction inside
the match group fixed by the `TestPreconditions` row
"IfMatch true, IfUnmodifiedSince false" (expected verdict `nil`): a set
`IfMatch` suppresses the `IfUnmodifiedSince` check entirely. -/
def checkPreconditions (info : ObjectInfo) (args : conditionalArgs) :
    Option CondVerdict :=
  if args.IfMatch ≠ "" ∧ args.IfMatch ≠ info.HashSum then
    some CondVerdict.preconditionFailed
  else if args.IfMatch = "" ∧ afterOpt info.Created args.IfUnmodifiedSince then
    some CondVerdict.preconditionFailed
  else if args.IfNoneMatch ≠ "" ∧ args.IfNoneMatch = info.HashSum then
    some CondVerdict.notModified
  else if notAfterOpt info.Created args.IfModifiedSince then
    some CondVerdict.notModified
  else
    none

/-! ## Range parsing

As with `checkPreconditions`, the body of `fetchRangeHeader` is missing from
`src/`; only its test table (`TestFetchRangeHeader`) is present. The model
below is spec-modelled (§4.1) and validated against all fourteen test rows
(`fetchRangeHeader_matches_TestFetchRangeHeader`). -/

/-- RangeParams stores the byte interval of an object payload
(inclusive 0-indexed offsets, `Start ≤ End`). -/
structure RangeParams where
  Start : Nat
  End : Nat
  deriving DecidableEq, Repr

/-- The characters of the mandatory `bytes=` range-unit marker. -/
def bytesUnit : List Char := ['b', 'y', 't', 'e', 's', '=']

/-- Split a character list on `-` separators, mirroring Go's
`strings.Split(s, "-")`: the result is never empty, and splitting the empty
string gives one empty part. -/
def splitDash : List Char → List (List Char)
  | [] => [[]]
  | c :: cs =>
    let r := splitDash cs
    if c = '-' then [] :: r
    else (c :: r.headD []) :: r.tail

/-- Decimal value of a digit list (only meaningful when every character is a
digit). -/
def digitsToNat (l : List Char) : Nat :=
  l.foldl (fun acc c => acc * 10 + (c.toNat - 48)) 0

/-- Parse a non-empty all-digit character list as a decimal natural, mirroring
`strconv.ParseUint(s, 10, 64)` on the inputs this layer feeds it (the model
uses unbounded naturals; a sign or any non-digit character fails). -/
def parseNatStr (l : List Char) : Option Nat :=
  if l = [] then none
  else if l.all Char.isDigit then some (digitsToNat l)
  else none

/-- Interpret a split byte-range-set against the object size: exactly two
parts, not both empty; an omitted start denotes a suffix range
`[size-N, size-1]` (truncated subtraction gives `max(0, size-N)`), an omitted
end denotes `[N, size-1]`, and with both present the end is clamped to
`size-1`. Produces the candidate `(start, end)` pair before validation. -/
def parseByteRangeSet (parts : List (List Char)) (fullSize : Nat) :
    Option (Nat × Nat) :=
  match parts with
  | [a, b] =>
    if a = [] ∧ b = [] then none
    else if a = [] then
      (parseNatStr b).map (fun n => (fullSize - n, fullSize - 1))
    else if b = [] then
      (parseNatStr a).map (fun n => (n, fullSize - 1))
    else
      match parseNatStr a, parseNatStr b with
      | some s, some e => some (s, min e (fullSize - 1))
      | _, _ => none
  | _ => none

/-- Validate a candidate `(start, end)` pair: the start must not exceed the
end and must lie inside the object (`start ≤ end ∧ start < size`); otherwise
the range is invalid. -/
def validateRange (fullSize : Nat) : Option (Nat × Nat) → Option (Option RangeParams)
  | none => none
  | some (s, e) =>
    if s ≤ e ∧ s < fullSize then some (some ⟨s, e⟩) else none

/-- Core of the range parser over the header's characters. The result is
`none` for an invalid range, `some none` for "no range requested", and
`some (some p)` for a validated range `p`. -/
def fetchRangeList (l : List Char) (fullSize : Nat) : Option (Option RangeParams) :=
  if l = [] then some none
  else if fullSize = 0 then none
  else if l.take 6 = bytesUnit then
    validateRange fullSize (parseByteRangeSet (splitDash (l.drop 6)) fullSize)
  else none

/-- Modelled from the spec: the body of `fetchRangeHeader`
(current-era `api/handler/get.go`) is missing from `src/`. Given the `Range`
header value (Go's `headers.Get("Range")`, `""` when absent) and the object
size, produce "no range requested" (`some none`), a validated range, or an
invalid-range failure (`none`), per §4.1 of the spec. -/
def fetchRangeHeader (rangeHeader : String) (fullSize : Nat) :
    Option (Option RangeParams) :=
  fetchRangeList rangeHeader.data fullSize

/-! ## The `GetObjectHandler` of `src/unnamed/part_000`

The handler is embedded as a pure function from the outcomes of its two
storage-abstraction calls to the ordered trace of externally visible actions
it performs on the logger and the `http.ResponseWriter`. `GetObject` receives
the response writer (`params.Writer = w`) and streams the payload into it
while executing, so any bytes it writes appear in the trace at the position
of that call. The `zap` structured-log fields (request id, bucket, object)
are abstracted into the log message. -/

/-- Error taxonomy of the storage abstraction (§6/§7 of the spec): a missing
bucket or object key, or a backend/transport failure, each carrying the Go
error's `Error()` text. -/
inductive StorageErrKind where
  | notFound
  | backend
  deriving DecidableEq, Repr

/-- A storage-abstraction error with its `err.Error()` text. -/
structure StorageErr where
  kind : StorageErrKind
  text : String
  deriving DecidableEq, Repr

/-- Externally visible actions of the handler, in execution order. -/
inductive Event where
  | logError (msg : String)
  | writeErrorResponse (code : String) (description : String) (httpStatus : Nat)
  | bodyWrite (bytes : Nat)
  | setHeader (name : String) (value : String)
  | writeHeader (status : Nat)
  deriving DecidableEq, Repr

/-- Outcome of `h.obj.GetObject(ctx, params)`: how many payload bytes it wrote
into `params.Writer` before returning, and the error it returned, if any. -/
structure GetObjectOutcome where
  bytesWritten : Nat
  err : Option String
  deriving DecidableEq, Repr

/-- `api.GetAPIError(api.ErrInternalError).Code`. -/
def errInternalErrorCode : String := "InternalError"

/-- `inf.Created.Format(http.TimeFormat)`: HTTP-date rendering abstracted as
an injective rendering of the instant. -/
def formatHTTPTime (t : Int) : String := toString t

/-- The `GetObjectHandler` of `src/unnamed/part_000`, transliterated: a failed
`GetObjectInfo` logs and writes an internal-error response (status 500,
description `err.Error()`) and returns; otherwise `GetObject` runs with the
response writer as sink, a failure there logs and writes the same kind of
response, and on success the handler sets `Content-Type`, `Last-Modified`
and `Content-Length` and calls `WriteHeader(200)` — after the `GetObject`
call has already streamed the body. -/
def GetObjectHandler (getObjectInfo : Except StorageErr ObjectInfo)
    (getObject : GetObjectOutcome) : List Event :=
  match getObjectInfo with
  | .error e =>
    [Event.logError "could not find object",
     Event.writeErrorResponse errInternalErrorCode e.text 500]
  | .ok inf =>
    (if getObject.bytesWritten > 0 then [Event.bodyWrite getObject.bytesWritten]
     else []) ++
    match getObject.err with
    | some msg =>
      [Event.logError "could not get object",
       Event.writeErrorResponse errInternalErrorCode msg 500]
    | none =>
      [Event.setHeader "Content-Type" inf.ContentType,
       Event.setHeader "Last-Modified" (formatHTTPTime inf.Created),
       Event.setHeader "Content-Length" (toString inf.Size),
       Event.writeHeader 200]

/-! ## The spec-modelled object-retrieval flow (§4.4)

The current-era range- and precondition-aware `GetObjectHandler` (the one
`TestGetRange` exercises, expecting `http.StatusPartialContent`) is absent
from `src/`; only the old handler above and the tests are present. The flow
below is modelled from §4.4 of the spec on top of the two components defined
from the test tables. -/

/-- Headers and body of a successful get-object response. `contentRange` is
`some (s, e, size)` exactly when a `Content-Range: bytes s-e/size` header is
set. -/
structure SuccessResponse where
  status : Nat
  contentType : String
  lastModified : Int
  contentLength : Nat
  contentRange : Option (Nat × Nat × Nat)
  body : List Nat
  deriving DecidableEq, Repr

/-- Outcome of one get-object operation: a protocol error with its HTTP
status, a success, or a read failure after headers were committed. -/
inductive GetResult where
  | protocolError (status : Nat)
  | success (r : SuccessResponse)
  | postCommitFailure (bytesWritten : Nat)
  deriving DecidableEq, Repr

/-- Modelled from the spec: the current-era get-object orchestrator
(`api/handler/get.go`) is absent from `src/`. Steps per §4.4: resolve
metadata (404 for a missing key, 500 for a backend failure, stop), evaluate
preconditions (412 / 304, stop), parse the Range header against the size
(416 on error), then read — the payload slice for a range, the whole payload
otherwise — and answer 200 or 206 with `Content-Length` set to the bytes
being returned and `Content-Range` set for a ranged read. `readErr` models a
backend read failure, which strikes after headers are committed. -/
def getObjectFlow (resolveResult : Except StorageErr ObjectInfo)
    (payload : List Nat) (readErr : Option StorageErr)
    (rangeHeader : String) (args : conditionalArgs) : GetResult :=
  match resolveResult with
  | .error e =>
    match e.kind with
    | .notFound => GetResult.protocolError 404
    | .backend => GetResult.protocolError 500
  | .ok info =>
    match checkPreconditions info args with
    | some CondVerdict.preconditionFailed => GetResult.protocolError 412
    | some CondVerdict.notModified => GetResult.protocolError 304
    | none =>
      match fetchRangeHeader rangeHeader info.Size with
      | none => GetResult.protocolError 416
      | some rng =>
        match readErr with
        | some _ => GetResult.postCommitFailure 0
        | none =>
          match rng with
          | none =>
            GetResult.success
              ⟨200, info.ContentType, info.Created, info.Size, none, payload⟩
          | some p =>
            GetResult.success
              ⟨206, info.ContentType, info.Created, p.End - p.Start + 1,
                some (p.Start, p.End, info.Size),
                (payload.drop p.Start).take (p.End - p.Start + 1)⟩

/-! ## Test fixtures — `src/api/handler/get_test.go` -/

/-- The `newInfo` helper of `TestPreconditions`: an `ObjectInfo` carrying only
an ETag (`HashSum`) and a creation instant. -/
def newInfo (etag : String) (created : Int) : ObjectInfo :=
  ⟨"", "", false, false, "", "", 0, "", created, etag, "", []⟩

/-- The object of `TestGetRange`: 15 payload bytes under
`bucket-for-range/object-to-range` (the payload is modelled as the byte
index list `List.range 15`, standing for `"123456789abcdef"`). -/
def rangeInfo : ObjectInfo :=
  ⟨"", "", false, false, "bucket-for-range", "object-to-range", 15, "", 0, "",
    "", []⟩

/-- The expected response of the `TestGetRange` request `bytes=5-10`. -/
def rangeSuccess : SuccessResponse :=
  ⟨206, "", 0, 6, some (5, 10, 15), [5, 6, 7, 8, 9, 10]⟩

/-- A concrete resolved object used to exercise the success path of the old
handler. -/
def sampleObject : ObjectInfo :=
  ⟨"obj-id", "cnr-id", false, false, "bkt", "obj", 15, "text/plain", 7,
    "etag", "owner", []⟩

/-- The thirteen rows of `TestPreconditions`, with `today` as instant `1` and
`yesterday` as instant `0`; the model reproduces every expected verdict. -/
theorem checkPreconditions_matches_TestPreconditions :
    checkPreconditions (newInfo "" 0) conditionalArgs.empty = none ∧
    checkPreconditions (newInfo "etag" 1) ⟨none, none, "etag", ""⟩ = none ∧
    checkPreconditions (newInfo "etag" 1) ⟨none, none, "etag2", ""⟩ =
      some CondVerdict.preconditionFailed ∧
    checkPreconditions (newInfo "etag" 1) ⟨none, none, "", "etag2"⟩ = none ∧
    checkPreconditions (newInfo "etag" 1) ⟨none, none, "", "etag"⟩ =
      some CondVerdict.notModified ∧
    checkPreconditions (newInfo "etag" 1) ⟨some 0, none, "", ""⟩ = none ∧
    checkPreconditions (newInfo "etag" 0) ⟨some 1, none, "", ""⟩ =
      some CondVerdict.notModified ∧
    checkPreconditions (newInfo "etag" 0) ⟨none, some 1, "", ""⟩ = none ∧
    checkPreconditions (newInfo "etag" 1) ⟨none, some 0, "", ""⟩ =
      some CondVerdict.preconditionFailed ∧
    checkPreconditions (newInfo "etag" 1) ⟨none, some 0, "etag", ""⟩ = none ∧
    checkPreconditions (newInfo "etag" 0) ⟨none, some 1, "etag2", ""⟩ =
      some CondVerdict.preconditionFailed ∧
    checkPreconditions (newInfo "etag" 1) ⟨some 0, none, "", "etag"⟩ =
      some CondVerdict.notModified ∧
    checkPreconditions (newInfo "etag" 0) ⟨some 1, none, "", "etag2"⟩ =
      some CondVerdict.notModified := by
  decide

/-- The fourteen rows of `TestFetchRangeHeader` (rows whose struct literal
omits `fullSize` get Go's zero value `0`); the model reproduces every
expected outcome. -/
theorem fetchRangeHeader_matches_TestFetchRangeHeader :
    fetchRangeHeader "bytes=0-256" 257 = some (some ⟨0, 256⟩) ∧
    fetchRangeHeader "bytes=0-0" 1 = some (some ⟨0, 0⟩) ∧
    fetchRangeHeader "bytes=0-256" 256 = some (some ⟨0, 255⟩) ∧
    fetchRangeHeader "bytes=0-" 100 = some (some ⟨0, 99⟩) ∧
    fetchRangeHeader "bytes=-10" 100 = some (some ⟨90, 99⟩) ∧
    fetchRangeHeader "" 0 = some none ∧
    fetchRangeHeader "bytes=-1-256" 0 = none ∧
    fetchRangeHeader "bytes=256-0" 0 = none ∧
    fetchRangeHeader "bytes=string-0" 0 = none ∧
    fetchRangeHeader "bytes=0-string" 0 = none ∧
    fetchRangeHeader "bytes:0-256" 0 = none ∧
    fetchRangeHeader "bytes:-" 0 = none ∧
    fetchRangeHeader "bytes=0-0" 0 = none ∧
    fetchRangeHeader "bytes=10-20" 5 = none := by
  decide

/-- The syntax-error rows of `TestFetchRangeHeader` stay errors against a
non-zero object size (their table rows leave `fullSize` at `0`, which would
mask a syntax failure). -/
theorem fetchRangeHeader_syntax_rows_nonzero_size :
    fetchRangeHeader "bytes=-1-256" 300 = none ∧
    fetchRangeHeader "bytes=256-0" 300 = none ∧
    fetchRangeHeader "bytes=string-0" 300 = none ∧
    fetchRangeHeader "bytes=0-string" 300 = none ∧
    fetchRangeHeader "bytes:0-256" 300 = none ∧
    fetchRangeHeader "bytes:-" 300 = none := by
  decide

/-! ## Lemmas about the range-parsing helpers -/

theorem splitDash_ne_nil (l : List Char) : splitDash l ≠ [] := by
  cases l with
  | nil => simp [splitDash]
  | cons c cs =>
    simp only [splitDash]
    split <;> simp

theorem splitDash_append_dash (a b : List Char) (h : ∀ c ∈ a, c ≠ '-') :
    splitDash (a ++ '-' :: b) = a :: splitDash b := by
  induction a with
  | nil => simp [splitDash]
  | cons c cs ih =>
    have hc : c ≠ '-' := h c (by simp)
    have ih2 := ih (fun d hd => h d (by simp [hd]))
    simp only [List.cons_append, splitDash, ih2, if_neg hc]
    simp [ih2]

theorem splitDash_no_dash (a : List Char) (h : ∀ c ∈ a, c ≠ '-') :
    splitDash a = [a] := by
  induction a with
  | nil => rfl
  | cons c cs ih =>
    have hc : c ≠ '-' := h c (by simp)
    have ih2 := ih (fun d hd => h d (by simp [hd]))
    simp [splitDash, ih2, hc]

theorem length_splitDash_append_dash (x y : List Char) :
    (splitDash y).length + 1 ≤ (splitDash (x ++ '-' :: y)).length := by
  induction x with
  | nil => simp [splitDash]
  | cons c cs ih =>
    have hne := splitDash_ne_nil (cs ++ '-' :: y)
    have hpos : 1 ≤ (splitDash (cs ++ '-' :: y)).length :=
      List.length_pos.mpr hne
    simp only [List.cons_append, splitDash]
    split
    · simp
      omega
    · simp [List.length_tail]
      omega

theorem parseNatStr_ne_nil {l : List Char} {n : Nat}
    (h : parseNatStr l = some n) : l ≠ [] := by
  intro he
  subst he
  simp [parseNatStr] at h

theorem parseNatStr_all_digits {l : List Char} {n : Nat}
    (h : parseNatStr l = some n) : l.all Char.isDigit = true := by
  unfold parseNatStr at h
  split at h
  · cases h
  · split at h
    · assumption
    · cases h

theorem digit_ne_dash {c : Char} (h : c.isDigit = true) : c ≠ '-' := by
  intro he
  rw [he] at h
  exact absurd h (by decide)

theorem parseNatStr_no_dash {l : List Char} {n : Nat}
    (h : parseNatStr l = some n) : ∀ c ∈ l, c ≠ '-' := by
  intro c hc
  exact digit_ne_dash (List.all_eq_true.mp (parseNatStr_all_digits h) c hc)

theorem data_append (a b : String) : (a ++ b).data = a.data ++ b.data := rfl

theorem data_bytesUnit : "bytes=".data = bytesUnit := rfl

theorem data_dash : "-".data = ['-'] := rfl

theorem take_six_bytesUnit (r : List Char) : (bytesUnit ++ r).take 6 = bytesUnit := rfl

theorem drop_six_bytesUnit (r : List Char) : (bytesUnit ++ r).drop 6 = r := rfl

/-- Reduction of the parser on a header that carries the `bytes=` unit and a
non-zero size: what remains is splitting, interpretation and validation. -/
theorem fetchRangeList_bytesUnit (r : List Char) (S : Nat) (hS : S ≠ 0) :
    fetchRangeList (bytesUnit ++ r) S =
      validateRange S (parseByteRangeSet (splitDash r) S) := by
  unfold fetchRangeList
  rw [if_neg (by simp [bytesUnit]), if_neg hS, if_pos (take_six_bytesUnit r),
    drop_six_bytesUnit]

theorem parseByteRangeSet_both {a b : List Char} {A B : Nat}
    (hA : parseNatStr a = some A) (hB : parseNatStr b = some B) (S : Nat) :
    parseByteRangeSet [a, b] S = some (A, min B (S - 1)) := by
  have ha := parseNatStr_ne_nil hA
  have hb := parseNatStr_ne_nil hB
  simp only [parseByteRangeSet]
  rw [if_neg (fun hc => ha hc.1), if_neg ha, if_neg hb, hA, hB]

theorem parseByteRangeSet_open {a : List Char} {N : Nat}
    (hA : parseNatStr a = some N) (S : Nat) :
    parseByteRangeSet [a, []] S = some (N, S - 1) := by
  have ha := parseNatStr_ne_nil hA
  simp only [parseByteRangeSet]
  rw [if_neg (fun hc => ha hc.1), if_neg ha]
  simp [hA]

theorem parseByteRangeSet_suffix {b : List Char} {N : Nat}
    (hB : parseNatStr b = some N) (S : Nat) :
    parseByteRangeSet [[], b] S = some (S - N, S - 1) := by
  simp only [parseByteRangeSet]
  rw [if_neg (fun hc => parseNatStr_ne_nil hB hc.2)]
  simp [hB]

theorem parseByteRangeSet_ne_two {l : List (List Char)} (h : l.length ≠ 2)
    (S : Nat) : parseByteRangeSet l S = none := by
  cases l with
  | nil => rfl
  | cons x xs =>
    cases xs with
    | nil => rfl
    | cons y ys =>
      cases ys with
      | nil => exact absurd rfl h
      | cons z zs => rfl

theorem validateRange_ok {S s e : Nat} (h1 : s ≤ e) (h2 : s < S) :
    validateRange S (some (s, e)) = some (some ⟨s, e⟩) := by
  simp only [validateRange]
  rw [if_pos ⟨h1, h2⟩]

theorem validateRange_fail {S s e : Nat} (h : ¬(s ≤ e ∧ s < S)) :
    validateRange S (some (s, e)) = none := by
  simp only [validateRange]
  rw [if_neg h]

theorem data_header_both (a b : String) :
    ("bytes=" ++ a ++ "-" ++ b).data = bytesUnit ++ (a.data ++ '-' :: b.data) := by
  simp [data_append, data_bytesUnit, data_dash, bytesUnit]

theorem data_header_open (a : String) :
    ("bytes=" ++ a ++ "-").data = bytesUnit ++ (a.data ++ '-' :: []) := by
  simp [data_append, data_bytesUnit, data_dash, bytesUnit]

theorem data_header_suffix (b : String) :
    ("bytes=" ++ "-" ++ b).data = bytesUnit ++ ('-' :: b.data) := by
  simp [data_append, data_bytesUnit, data_dash, bytesUnit]

theorem string_ne_empty_data {h : String} (hne : h ≠ "") : h.data ≠ [] := by
  intro hd
  cases h with
  | mk l => simp_all

theorem fetchRangeList_zero (l : List Char) (hl : l ≠ []) :
    fetchRangeList l 0 = none := by
  unfold fetchRangeList
  rw [if_neg hl, if_pos rfl]

theorem splitDash_cons_dash (rest : List Char) :
    splitDash ('-' :: rest) = [] :: splitDash rest := by
  simp [splitDash]

theorem data_header_negStart (a b : String) :
    ("bytes=" ++ "-" ++ a ++ "-" ++ b).data =
      bytesUnit ++ ('-' :: (a.data ++ '-' :: b.data)) := by
  simp [data_append, data_bytesUnit, data_dash, bytesUnit]

theorem data_ddash : "--".data = ['-', '-'] := rfl

theorem data_header_negEnd (a b : String) :
    ("bytes=" ++ a ++ "--" ++ b).data =
      bytesUnit ++ (a.data ++ '-' :: '-' :: b.data) := by
  simp [data_append, data_bytesUnit, data_ddash, bytesUnit]

/-! ## Claims about the precondition evaluator -/

/-- Claim C1 is false on the code: in the row of `TestPreconditions` at the
cited lines ("IfMatch true, IfUnmodifiedSince false" — ETag matches, object
modified strictly after the `IfUnmodifiedSince` instant), the expected and
modelled verdict is `nil` (no violation), not `PreconditionFailed`. -/
theorem claim_C1_counterexample :
    checkPreconditions (newInfo "etag" 1) ⟨none, some 0, "etag", ""⟩ ≠
      some CondVerdict.preconditionFailed := by
  decide

/-- Claim C1 (amended): if `IfMatch` is set and equals the object's ETag while
`IfUnmodifiedSince` is set to an instant strictly before the object's
Last-Modified (and the two none-match-group arguments are unset), the verdict
is no violation — within the match group, `IfMatch` success suppresses the
`IfUnmodifiedSince` failure. -/
theorem claim_C1 (info : ObjectInfo) (args : conditionalArgs)
    (hm : args.IfMatch = info.HashSum) (hm0 : args.IfMatch ≠ "")
    (t : Int) (hu : args.IfUnmodifiedSince = some t) (ht : t < info.Created)
    (hnm : args.IfNoneMatch = "") (hms : args.IfModifiedSince = none) :
    checkPreconditions info args = none := by
  unfold checkPreconditions
  rw [if_neg (by simp [hm]), if_neg (fun hc => hm0 hc.1),
    if_neg (by simp [hnm]), if_neg (by simp [hms, notAfterOpt])]

theorem claim_C1_witness :
    checkPreconditions (newInfo "etag" 5) ⟨none, some 3, "etag", ""⟩ = none :=
  claim_C1 (newInfo "etag" 5) ⟨none, some 3, "etag", ""⟩ rfl (by decide) 3 rfl
    (by decide) rfl rfl

/-- Claim C3: whenever `IfMatch` is set and differs from the object's ETag,
the evaluator returns `PreconditionFailed`, whatever the other three
conditional arguments hold; being a function into `Option CondVerdict`, it
returns exactly this one verdict for the call. -/
theorem claim_C3 (info : ObjectInfo) (args : conditionalArgs)
    (hset : args.IfMatch ≠ "") (hne : args.IfMatch ≠ info.HashSum) :
    checkPreconditions info args = some CondVerdict.preconditionFailed := by
  unfold checkPreconditions
  rw [if_pos ⟨hset, hne⟩]

theorem claim_C3_witness :
    checkPreconditions (newInfo "etag" 1) ⟨some 0, some 2, "etag2", "etag"⟩ =
      some CondVerdict.preconditionFailed :=
  claim_C3 (newInfo "etag" 1) ⟨some 0, some 2, "etag2", "etag"⟩ (by decide)
    (by decide)

/-- Claim C4: the evaluator returns `NotModified` exactly when no match-group
check has already failed (the call does not return `PreconditionFailed`) and
either `IfNoneMatch` is set and equals the object's ETag, or `IfNoneMatch`
does not trigger and `IfModifiedSince` is set with the object's Last-Modified
not strictly after it. -/
theorem claim_C4 (info : ObjectInfo) (args : conditionalArgs) :
    checkPreconditions info args = some CondVerdict.notModified ↔
      (checkPreconditions info args ≠ some CondVerdict.preconditionFailed ∧
        ((args.IfNoneMatch ≠ "" ∧ args.IfNoneMatch = info.HashSum) ∨
          (¬(args.IfNoneMatch ≠ "" ∧ args.IfNoneMatch = info.HashSum) ∧
            notAfterOpt info.Created args.IfModifiedSince = true))) := by
  unfold checkPreconditions
  split_ifs with h1 h2 h3 h4
  · simp
  · simp
  · exact ⟨fun _ => ⟨by simp, Or.inl h3⟩, fun _ => rfl⟩
  · exact ⟨fun _ => ⟨by simp, Or.inr ⟨h3, h4⟩⟩, fun _ => rfl⟩
  · constructor
    · intro hc
      exact absurd hc (by simp)
    · rintro ⟨-, hh | ⟨-, hh⟩⟩
      · exact absurd hh h3
      · exact absurd hh h4

/-! ## Claim about the metadata model -/

/-- Claim C10: the three reserved system-object name accessors of
`BucketInfo` return fixed, pairwise distinct constants independent of the
bucket's fields. -/
theorem claim_C10 (b : BucketInfo) :
    b.SettingsObjectName = ".s3-settings" ∧
    b.CORSObjectName = ".s3-cors" ∧
    b.NotificationConfigurationObjectName = ".s3-notifications" ∧
    b.SettingsObjectName ≠ b.CORSObjectName ∧
    b.SettingsObjectName ≠ b.NotificationConfigurationObjectName ∧
    b.CORSObjectName ≠ b.NotificationConfigurationObjectName := by
  unfold BucketInfo.SettingsObjectName BucketInfo.CORSObjectName
    BucketInfo.NotificationConfigurationObjectName bktSettingsObject
    bktCORSConfigurationObject bktNotificationConfigurationObject
  refine ⟨rfl, rfl, rfl, ?_, ?_, ?_⟩ <;> decide

/-! ## Claims about the range parser -/

/-- Claim C5 is false on the code as stated for the suffix form: against size
`1`, the header `bytes=-0` (suffix length `N = 0`) evaluates to the
invalid-range failure `none`, not to the claimed
`{max(0, S-N), S-1} = {1, 0}` (which would violate the `Start ≤ End`
invariant of `RangeParams`). -/
theorem claim_C5_counterexample :
    fetchRangeHeader ("bytes=" ++ "-" ++ "0") 1 = none ∧
    fetchRangeHeader ("bytes=" ++ "-" ++ "0") 1 ≠ some (some ⟨1 - 0, 1 - 1⟩) := by
  decide

/-- Claim C5 (amended): for every object size `S > 0` the parser maps each
well-formed header to exact bounds — `bytes=A-B` with `A < S` and `A ≤ B`
yields `{A, min(B, S-1)}` (an end beyond the size is clamped, not an error),
`bytes=N-` with `N < S` yields `{N, S-1}`, `bytes=-N` with `N ≥ 1` yields
`{max(0, S-N), S-1}` (written with truncated subtraction) while the empty
suffix `bytes=-0` (any digit rendering of zero) is rejected as an invalid
range, and an empty Range header yields "no range requested" without error.
The numerals are quantified as the digit substrings of the header via
`parseNatStr`. -/
theorem claim_C5 (S : Nat) (hS : 0 < S) :
    (∀ (a b : String) (A B : Nat), parseNatStr a.data = some A →
      parseNatStr b.data = some B → A < S → A ≤ B →
      fetchRangeHeader ("bytes=" ++ a ++ "-" ++ b) S =
        some (some ⟨A, min B (S - 1)⟩)) ∧
    (∀ (a : String) (N : Nat), parseNatStr a.data = some N → N < S →
      fetchRangeHeader ("bytes=" ++ a ++ "-") S = some (some ⟨N, S - 1⟩)) ∧
    (∀ (b : String) (N : Nat), parseNatStr b.data = some N → 1 ≤ N →
      fetchRangeHeader ("bytes=" ++ "-" ++ b) S = some (some ⟨S - N, S - 1⟩)) ∧
    (∀ b : String, parseNatStr b.data = some 0 →
      fetchRangeHeader ("bytes=" ++ "-" ++ b) S = none) ∧
    fetchRangeHeader "" S = some none := by
  refine ⟨?_, ?_, ?_, ?_, rfl⟩
  · intro a b A B hA hB hAS hAB
    rw [fetchRangeHeader, data_header_both,
      fetchRangeList_bytesUnit _ _ (by omega),
      splitDash_append_dash _ _ (parseNatStr_no_dash hA),
      splitDash_no_dash _ (parseNatStr_no_dash hB),
      parseByteRangeSet_both hA hB,
      validateRange_ok (le_min hAB (by omega)) hAS]
  · intro a N hA hNS
    rw [fetchRangeHeader, data_header_open,
      fetchRangeList_bytesUnit _ _ (by omega),
      splitDash_append_dash _ _ (parseNatStr_no_dash hA)]
    rw [show splitDash ([] : List Char) = [[]] from rfl,
      parseByteRangeSet_open hA, validateRange_ok (by omega) hNS]
  · intro b N hB hN
    rw [fetchRangeHeader, data_header_suffix,
      fetchRangeList_bytesUnit _ _ (by omega), splitDash_cons_dash,
      splitDash_no_dash _ (parseNatStr_no_dash hB),
      parseByteRangeSet_suffix hB, validateRange_ok (by omega) (by omega)]
  · intro b hB
    rw [fetchRangeHeader, data_header_suffix,
      fetchRangeList_bytesUnit _ _ (by omega), splitDash_cons_dash,
      splitDash_no_dash _ (parseNatStr_no_dash hB),
      parseByteRangeSet_suffix hB]
    exact validateRange_fail (by omega)

theorem claim_C5_witness :
    (0 : Nat) < 257 ∧
    fetchRangeHeader ("bytes=" ++ "0" ++ "-" ++ "256") 257 =
      some (some ⟨0, min 256 (257 - 1)⟩) ∧
    fetchRangeHeader ("bytes=" ++ "5" ++ "-") 15 = some (some ⟨5, 15 - 1⟩) ∧
    fetchRangeHeader ("bytes=" ++ "-" ++ "10") 100 =
      some (some ⟨100 - 10, 100 - 1⟩) ∧
    fetchRangeHeader ("bytes=" ++ "-" ++ "0") 257 = none ∧
    fetchRangeHeader "" 257 = some none :=
  ⟨by decide,
   (claim_C5 257 (by decide)).1 "0" "256" 0 256 (by decide) (by decide)
     (by decide) (by decide),
   (claim_C5 15 (by decide)).2.1 "5" 5 (by decide) (by decide),
   (claim_C5 100 (by decide)).2.2.1 "10" 10 (by decide) (by decide),
   (claim_C5 257 (by decide)).2.2.2.1 "0" (by decide),
   (claim_C5 257 (by decide)).2.2.2.2⟩

/-- Claim C6: for every non-empty Range header the parser returns an
invalid-range failure whenever (1) the header does not begin with the
`bytes=` unit, (2) the object size is `0` — so every range request against an
empty object fails, including `bytes=0-0` — (3) both bounds are given with
`A > B`, (4) a given start `A` is `≥ S` (with any end part), (5) the start is
negative (`bytes=-A-B`), (6) the end is negative (`bytes=A--B`), or (7) a
non-empty start or end part fails numeric parsing. -/
theorem claim_C6 :
    (∀ (h : String) (S : Nat), h ≠ "" → h.data.take 6 ≠ bytesUnit →
      fetchRangeHeader h S = none) ∧
    (∀ h : String, h ≠ "" → fetchRangeHeader h 0 = none) ∧
    (∀ (a b : String) (A B S : Nat), parseNatStr a.data = some A →
      parseNatStr b.data = some B → B < A →
      fetchRangeHeader ("bytes=" ++ a ++ "-" ++ b) S = none) ∧
    (∀ (a b : String) (A S : Nat), parseNatStr a.data = some A → S ≤ A →
      fetchRangeHeader ("bytes=" ++ a ++ "-" ++ b) S = none) ∧
    (∀ (a b : String) (S : Nat),
      fetchRangeHeader ("bytes=" ++ "-" ++ a ++ "-" ++ b) S = none) ∧
    (∀ (a b : String) (S : Nat),
      fetchRangeHeader ("bytes=" ++ a ++ "--" ++ b) S = none) ∧
    (∀ (a b : String) (S : Nat), (∀ c ∈ a.data, c ≠ '-') →
      (∀ c ∈ b.data, c ≠ '-') →
      ((a.data ≠ [] ∧ parseNatStr a.data = none) ∨
        (b.data ≠ [] ∧ parseNatStr b.data = none)) →
      fetchRangeHeader ("bytes=" ++ a ++ "-" ++ b) S = none) := by
  refine ⟨?_, ?_, ?_, ?_, ?_, ?_, ?_⟩
  · intro h S hne hpre
    unfold fetchRangeHeader fetchRangeList
    rw [if_neg (string_ne_empty_data hne)]
    by_cases hS : S = 0
    · rw [if_pos hS]
    · rw [if_neg hS, if_neg hpre]
  · intro h hne
    exact fetchRangeList_zero h.data (string_ne_empty_data hne)
  · intro a b A B S hA hB hBA
    by_cases hS : S = 0
    · subst hS
      rw [fetchRangeHeader, data_header_both]
      exact fetchRangeList_zero _ (by simp [bytesUnit])
    · rw [fetchRangeHeader, data_header_both, fetchRangeList_bytesUnit _ _ hS,
        splitDash_append_dash _ _ (parseNatStr_no_dash hA),
        splitDash_no_dash _ (parseNatStr_no_dash hB),
        parseByteRangeSet_both hA hB]
      exact validateRange_fail
        (fun hc => absurd (le_trans hc.1 (min_le_left _ _)) (by omega))
  · intro a b A S hA hSA
    by_cases hS : S = 0
    · subst hS
      rw [fetchRangeHeader, data_header_both]
      exact fetchRangeList_zero _ (by simp [bytesUnit])
    · rw [fetchRangeHeader, data_header_both, fetchRangeList_bytesUnit _ _ hS,
        splitDash_append_dash _ _ (parseNatStr_no_dash hA)]
      cases hsb : splitDash b.data with
      | nil => exact absurd hsb (splitDash_ne_nil _)
      | cons x xs =>
        cases xs with
        | nil =>
          by_cases hx : x = []
          · subst hx
            rw [parseByteRangeSet_open hA]
            exact validateRange_fail (fun hc => absurd hc.2 (by omega))
          · have ha := parseNatStr_ne_nil hA
            simp only [parseByteRangeSet]
            rw [if_neg (fun hc => ha hc.1), if_neg ha, if_neg hx, hA]
            cases parseNatStr x with
            | none => rfl
            | some B =>
              exact validateRange_fail (fun hc => absurd hc.2 (by omega))
        | cons y ys =>
          rw [parseByteRangeSet_ne_two (by simp) S]
          rfl
  · intro a b S
    by_cases hS : S = 0
    · subst hS
      rw [fetchRangeHeader, data_header_negStart]
      exact fetchRangeList_zero _ (by simp [bytesUnit])
    · rw [fetchRangeHeader, data_header_negStart,
        fetchRangeList_bytesUnit _ _ hS, splitDash_cons_dash]
      have hlen := length_splitDash_append_dash a.data b.data
      have hpos := List.length_pos.mpr (splitDash_ne_nil b.data)
      rw [parseByteRangeSet_ne_two (by simp; omega) S]
      rfl
  · intro a b S
    by_cases hS : S = 0
    · subst hS
      rw [fetchRangeHeader, data_header_negEnd]
      exact fetchRangeList_zero _ (by simp [bytesUnit])
    · rw [fetchRangeHeader, data_header_negEnd,
        fetchRangeList_bytesUnit _ _ hS]
      have hlen := length_splitDash_append_dash a.data ('-' :: b.data)
      have hpos := List.length_pos.mpr (splitDash_ne_nil b.data)
      rw [splitDash_cons_dash] at hlen
      rw [parseByteRangeSet_ne_two (by simp at hlen ⊢; omega) S]
      rfl
  · intro a b S hda hdb hor
    by_cases hS : S = 0
    · subst hS
      rw [fetchRangeHeader, data_header_both]
      exact fetchRangeList_zero _ (by simp [bytesUnit])
    · rw [fetchRangeHeader, data_header_both, fetchRangeList_bytesUnit _ _ hS,
        splitDash_append_dash _ _ hda, splitDash_no_dash _ hdb]
      rcases hor with ⟨hane, hap⟩ | ⟨hbne, hbp⟩
      · by_cases hb : b.data = []
        · simp only [parseByteRangeSet]
          rw [if_neg (fun hc => hane hc.1), if_neg hane, if_pos hb, hap]
          rfl
        · simp only [parseByteRangeSet]
          rw [if_neg (fun hc => hane hc.1), if_neg hane, if_neg hb, hap]
          cases parseNatStr b.data with
          | none => rfl
          | some B => rfl
      · by_cases ha : a.data = []
        · simp only [parseByteRangeSet]
          rw [if_neg (fun hc => hbne hc.2), if_pos ha, hbp]
          rfl
        · simp only [parseByteRangeSet]
          rw [if_neg (fun hc => hbne hc.2), if_neg ha, if_neg hbne, hbp]
          cases parseNatStr a.data with
          | none => rfl
          | some A => rfl

theorem claim_C6_witness :
    fetchRangeHeader "bytes:0-256" 257 = none ∧
    fetchRangeHeader "bytes=0-0" 0 = none ∧
    fetchRangeHeader ("bytes=" ++ "256" ++ "-" ++ "0") 257 = none ∧
    fetchRangeHeader ("bytes=" ++ "10" ++ "-" ++ "20") 5 = none ∧
    fetchRangeHeader ("bytes=" ++ "-" ++ "1" ++ "-" ++ "256") 300 = none ∧
    fetchRangeHeader ("bytes=" ++ "3" ++ "--" ++ "7") 300 = none ∧
    fetchRangeHeader ("bytes=" ++ "string" ++ "-" ++ "0") 300 = none :=
  ⟨claim_C6.1 "bytes:0-256" 257 (by decide) (by decide),
   claim_C6.2.1 "bytes=0-0" (by decide),
   claim_C6.2.2.1 "256" "0" 256 0 257 (by decide) (by decide) (by decide),
   claim_C6.2.2.2.1 "10" "20" 10 5 (by decide) (by decide),
   claim_C6.2.2.2.2.1 "1" "256" 300,
   claim_C6.2.2.2.2.2.1 "3" "7" 300,
   claim_C6.2.2.2.2.2.2 "string" "0" 300 (by decide) (by decide)
     (Or.inl ⟨by decide, by decide⟩)⟩

/-! ## Claims about the get-object orchestration -/

theorem parseByteRangeSet_end_le {parts : List (List Char)} {S s e : Nat}
    (h : parseByteRangeSet parts S = some (s, e)) : e ≤ S - 1 := by
  cases parts with
  | nil => simp [parseByteRangeSet] at h
  | cons x xs =>
    cases xs with
    | nil => simp [parseByteRangeSet] at h
    | cons y ys =>
      cases ys with
      | cons z zs => simp [parseByteRangeSet] at h
      | nil =>
        simp only [parseByteRangeSet] at h
        split_ifs at h with h1 h2 h3
        · cases hpb : parseNatStr y with
          | none => rw [hpb] at h; simp at h
          | some n =>
            rw [hpb] at h
            simp at h
            omega
        · cases hpa : parseNatStr x with
          | none => rw [hpa] at h; simp at h
          | some n =>
            rw [hpa] at h
            simp at h
            omega
        · cases hpa : parseNatStr x with
          | none => rw [hpa] at h; simp at h
          | some A =>
            rw [hpa] at h
            cases hpb : parseNatStr y with
            | none => rw [hpb] at h; simp at h
            | some B =>
              rw [hpb] at h
              simp at h
              have := min_le_right B (S - 1)
              omega

/-- Every validated range lies inside the object: the `RangeParams` invariant
`Start ≤ End` holds and both offsets are below the size. -/
theorem fetchRangeHeader_valid {h : String} {S : Nat} {p : RangeParams}
    (hp : fetchRangeHeader h S = some (some p)) :
    p.Start ≤ p.End ∧ p.Start < S ∧ p.End < S := by
  unfold fetchRangeHeader fetchRangeList at hp
  split_ifs at hp with h1 h2 h3
  · simp at hp
  · cases hpr : parseByteRangeSet (splitDash (h.data.drop 6)) S with
    | none => rw [hpr] at hp; simp [validateRange] at hp
    | some se =>
      obtain ⟨s, e⟩ := se
      rw [hpr] at hp
      have hend := parseByteRangeSet_end_le hpr
      simp only [validateRange] at hp
      split_ifs at hp with hv
      simp only [Option.some.injEq] at hp
      subst hp
      refine ⟨hv.1, hv.2, ?_⟩
      show e < S
      omega

/-- The spec-modelled flow reproduces the four ranged requests of
`TestGetRange` against the 15-byte object: each returns 206
(`http.StatusPartialContent`) with exactly the expected payload slice. -/
theorem getObjectFlow_matches_TestGetRange :
    getObjectFlow (Except.ok rangeInfo) (List.range 15) none "bytes=0-14"
        conditionalArgs.empty =
      GetResult.success ⟨206, "", 0, 15, some (0, 14, 15), List.range 15⟩ ∧
    getObjectFlow (Except.ok rangeInfo) (List.range 15) none "bytes=0-3"
        conditionalArgs.empty =
      GetResult.success ⟨206, "", 0, 4, some (0, 3, 15), [0, 1, 2, 3]⟩ ∧
    getObjectFlow (Except.ok rangeInfo) (List.range 15) none "bytes=5-10"
        conditionalArgs.empty =
      GetResult.success ⟨206, "", 0, 6, some (5, 10, 15), [5, 6, 7, 8, 9, 10]⟩ ∧
    getObjectFlow (Except.ok rangeInfo) (List.range 15) none "bytes=10-15"
        conditionalArgs.empty =
      GetResult.success
        ⟨206, "", 0, 5, some (10, 14, 15), [10, 11, 12, 13, 14]⟩ := by
  decide

/-- Claim C7: every successful get-object response has status 200 for a full
read and 206 for a ranged read, `Content-Length` equal to the number of body
bytes actually returned (the full size, or `End - Start + 1` for a range),
and, when a range was served, a `Content-Range` triple `(Start, End, Size)`.
The hypothesis ties the stored payload length to the resolved metadata size. -/
theorem claim_C7 (info : ObjectInfo) (payload : List Nat) (rangeHeader : String)
    (args : conditionalArgs) (r : SuccessResponse)
    (hlen : payload.length = info.Size)
    (hr : getObjectFlow (Except.ok info) payload none rangeHeader args =
      GetResult.success r) :
    (r.contentRange = none → r.status = 200 ∧ r.contentLength = info.Size ∧
      r.contentLength = r.body.length) ∧
    (∀ s e sz, r.contentRange = some (s, e, sz) → r.status = 206 ∧
      sz = info.Size ∧ r.contentLength = e - s + 1 ∧
      r.contentLength = r.body.length) := by
  cases hcp : checkPreconditions info args with
  | some v =>
    cases v <;> simp only [getObjectFlow, hcp] at hr <;>
      exact GetResult.noConfusion hr
  | none =>
    simp only [getObjectFlow, hcp] at hr
    cases hrng : fetchRangeHeader rangeHeader info.Size with
    | none =>
      rw [hrng] at hr
      exact GetResult.noConfusion hr
    | some rng =>
      rw [hrng] at hr
      cases rng with
      | none =>
        injection hr with h
        subst h
        constructor
        · intro _
          exact ⟨rfl, rfl, by simp [hlen]⟩
        · intro s e sz hc
          exact Option.noConfusion hc
      | some p =>
        injection hr with h
        subst h
        have hv := fetchRangeHeader_valid hrng
        constructor
        · intro hc
          exact Option.noConfusion hc
        · intro s e sz hc
          simp only [Option.some.injEq, Prod.mk.injEq] at hc
          obtain ⟨rfl, rfl, rfl⟩ := hc
          refine ⟨rfl, rfl, rfl, ?_⟩
          simp only [List.length_take, List.length_drop, hlen]
          omega

theorem claim_C7_witness :
    rangeSuccess.status = 206 ∧ (15 : Nat) = rangeInfo.Size ∧
    rangeSuccess.contentLength = 10 - 5 + 1 ∧
    rangeSuccess.contentLength = rangeSuccess.body.length :=
  (claim_C7 rangeInfo (List.range 15) "bytes=5-10" conditionalArgs.empty
    rangeSuccess (by decide) (by decide)).2 5 10 15 (by decide)

/-- Claim C2 is false on the code: for a metadata-resolution failure whose
kind is a missing object, the handler of `src/unnamed/part_000` still answers
HTTP 500 with the generic internal-error code — never 404. -/
theorem claim_C2_counterexample :
    GetObjectHandler
        (Except.error ⟨StorageErrKind.notFound, "object not found"⟩)
        ⟨0, none⟩ =
      [Event.logError "could not find object",
       Event.writeErrorResponse errInternalErrorCode "object not found" 500] ∧
    Event.writeErrorResponse errInternalErrorCode "object not found" 404 ∉
      GetObjectHandler
        (Except.error ⟨StorageErrKind.notFound, "object not found"⟩)
        ⟨0, none⟩ := by
  decide

/-- Claim C2 (amended): every failure of the metadata-resolution step —
missing bucket/object key and backend failure alike — is answered with a
single HTTP 500 internal-error response, and no further step executes: the
trace is exactly the log entry and the error response, with no body write, no
header set and no status commit. -/
theorem claim_C2 (e : StorageErr) (out : GetObjectOutcome) :
    GetObjectHandler (Except.error e) out =
      [Event.logError "could not find object",
       Event.writeErrorResponse errInternalErrorCode e.text 500] := rfl

/-- Claim C8 is contradicted by the code (code bug): on a successful read of
a non-empty object, `GetObject` — called with the response writer as its sink
— has already streamed the whole body before the handler sets
`Content-Type`, `Last-Modified` and `Content-Length` and commits the 200
status, so every header is set after the first body write (where Go's
`net/http` silently discards them). -/
theorem claim_C8 :
    GetObjectHandler (Except.ok sampleObject) ⟨15, none⟩ =
      [Event.bodyWrite 15,
       Event.setHeader "Content-Type" "text/plain",
       Event.setHeader "Last-Modified" (formatHTTPTime 7),
       Event.setHeader "Content-Length" "15",
       Event.writeHeader 200] := by
  decide

/-- Claim C9 is false on the code: for a backend failure of the
metadata-resolution call, the 500 response's description is exactly the
backend error's own text, so backend internals are leaked to the client. -/
theorem claim_C9_counterexample :
    GetObjectHandler
        (Except.error ⟨StorageErrKind.backend, "backend timeout"⟩) ⟨0, none⟩ =
      [Event.logError "could not find object",
       Event.writeErrorResponse errInternalErrorCode "backend timeout" 500] := by
  decide

/-- Claim C9 (amended): for every backend error raised by either storage call
during get-object, the handler answers with the generic internal-error code
and HTTP 500, but the response description is the backend error's own
`Error()` text — backend internals are passed through, not hidden. -/
theorem claim_C9 (e : StorageErr) (out : GetObjectOutcome) (inf : ObjectInfo)
    (msg : String) (hmsg : out.err = some msg) :
    GetObjectHandler (Except.error e) out =
      [Event.logError "could not find object",
       Event.writeErrorResponse errInternalErrorCode e.text 500] ∧
    GetObjectHandler (Except.ok inf) out =
      (if out.bytesWritten > 0 then [Event.bodyWrite out.bytesWritten]
       else []) ++
      [Event.logError "could not get object",
       Event.writeErrorResponse errInternalErrorCode msg 500] := by
  refine ⟨rfl, ?_⟩
  unfold GetObjectHandler
  rw [hmsg]

theorem claim_C9_witness :
    GetObjectHandler
        (Except.error ⟨StorageErrKind.backend, "dial tcp refused"⟩)
        ⟨3, some "read failed"⟩ =
      [Event.logError "could not find object",
       Event.writeErrorResponse errInternalErrorCode "dial tcp refused" 500] ∧
    GetObjectHandler (Except.ok (newInfo "" 0)) ⟨3, some "read failed"⟩ =
      [Event.bodyWrite 3,
       Event.logError "could not get object",
       Event.writeErrorResponse errInternalErrorCode "read failed" 500] :=
  claim_C9 ⟨StorageErrKind.backend, "dial tcp refused"⟩ ⟨3, some "read failed"⟩
    (newInfo "" 0) "read failed" rfl

end S3
